import Mathlib

/-!
Shallow embedding of the webhook-processing core of the
twilio-openai-conversations service, together with proofs of the
specified properties.

The embedding translates, function by function, the Python sources:
`src/models/webhook.py`, `src/models/conversation.py`,
`src/services/twilio_service.py`, `src/services/session_service.py`,
`src/services/agent_service.py` and `src/handlers/webhook_handler.py`.
External collaborators (the Twilio REST client, the OpenAI client, the
SQL database) are modelled as explicit inputs: fetch results, send
results and backend results are passed in as parameters, and the
message store is an explicit association list from session id to the
ordered list of persisted messages.
-/

namespace TwilioBot

/-! ## Data model (`src/models/conversation.py`, `src/models/webhook.py`) -/

/-- Whitespace characters stripped by Python string trimming (restricted to
the ASCII whitespace occurring in message bodies). -/
def isSpaceChar (ch : Char) : Bool :=
  ch == ' ' || ch == '\t' || ch == '\n' || ch == '\r'

/-- Python `str.strip()`: remove leading and trailing whitespace. -/
def pyStrip (s : String) : String :=
  String.mk (((s.data.dropWhile isSpaceChar).reverse.dropWhile isSpaceChar).reverse)

/-- Python `str.startswith(pre)`. -/
def strStartsWith (s pre : String) : Bool :=
  pre.data.isPrefixOf s.data

/-- Roles of stored messages (`MessageRole` enum). -/
inductive MessageRole
  | user
  | assistant
  | system
deriving DecidableEq, Repr

/-- Metadata attached to a stored message.  The Python code passes a free-form
dict; the keys actually written by the webhook handler are modelled as fields,
with absence of a key represented by the default value. -/
structure MessageMeta where
  twilio_message_sid : Option String := none
  confidence : Option ℚ := none
deriving DecidableEq, Repr

/-- A persisted conversation message (`Message` pydantic model).  The `id` is
the unique message identifier (a fresh UUID in the Python code, here supplied
explicitly by callers). -/
structure Message where
  id : String
  role : MessageRole
  content : String
  author : Option String := none
  meta : MessageMeta := {}
deriving DecidableEq, Repr

/-- Construction of a `Message`, including the pydantic field validation:
`content` must be a present string with `1 ≤ length ≤ 4000`, and the custom
validator rejects content that is empty after stripping whitespace and stores
the stripped text.  A failed validation raises in Python; here it yields
`none`. -/
def mkMessage (id : String) (role : MessageRole) (content : Option String)
    (author : Option String) (meta : MessageMeta) : Option Message :=
  match content with
  | none => none
  | some c =>
    if c.length < 1 then none
    else if 4000 < c.length then none
    else if pyStrip c = "" then none
    else some { id := id, role := role, content := pyStrip c, author := author, meta := meta }

/-- Participant of a Twilio conversation, as fetched from the Twilio API
(`TwilioParticipant` model); only the `identity` field is consulted by the
eligibility check. -/
structure TwilioParticipant where
  identity : Option String := none
deriving DecidableEq, Repr

/-- Conversation details fetched from the Twilio API (`TwilioConversation`
model); only the `state` field is consulted by the eligibility check. -/
structure TwilioConversation where
  state : Option String := none
deriving DecidableEq, Repr

/-- Webhook event types (`WebhookEventType` enum). -/
inductive WebhookEventType
  | onMessageAdd
  | onParticipantAdd
  | onParticipantRemove
  | onConversationStateUpdate
  | onConversationAdd
  | onConversationRemove
deriving DecidableEq, Repr

/-- Parsed inbound webhook payload (`WebhookRequest` model), restricted to the
fields the message-added pipeline reads. -/
structure WebhookRequest where
  EventType : WebhookEventType
  AccountSid : String
  ServiceSid : String
  ConversationSid : String
  MessageSid : Option String := none
  ParticipantSid : Option String := none
  Author : Option String := none
  Body : Option String := none
deriving DecidableEq, Repr

/-- Response of the webhook endpoint (`WebhookResponse` model). -/
structure WebhookResponse where
  success : Bool
  message : String
  processing_time_ms : Option Nat := none
  agent_responded : Bool := false
  error_code : Option String := none
deriving DecidableEq, Repr

/-! ## Candidate filter (`WebhookRequest.should_process_with_agent`) -/

/-- Translation of `WebhookRequest.is_message_event`. -/
def is_message_event (r : WebhookRequest) : Bool :=
  r.EventType == WebhookEventType.onMessageAdd

/-- Translation of `WebhookRequest.should_process_with_agent`: process only
message-add events whose body is present and non-empty after stripping and
whose author is not the bot identity `"assistant"`. -/
def should_process_with_agent (r : WebhookRequest) : Bool :=
  is_message_event r &&
  (match r.Body with
   | none => false
   | some b => !(pyStrip b == "")) &&
  !(r.Author == some "assistant")

/-! ## Eligibility check (`TwilioConversationService.check_conversation_eligibility`) -/

/-- The dictionary returned by `check_conversation_eligibility`, restricted to
the keys present on every return path that the callers and the claims consult
(`participant_count` is always set; `customer_count` only from the
human-agent check onwards, modelled with `Option`). -/
structure EligibilityResult where
  eligible : Bool
  reason : String
  participant_count : Nat := 0
  customer_count : Option Nat := none
  has_human_agent : Bool := false
deriving DecidableEq, Repr

/-- A participant counts as a customer when its identity is truthy and does
not start with `"agent_"` (list comprehension in
`check_conversation_eligibility`). -/
def isCustomerParticipant (p : TwilioParticipant) : Bool :=
  match p.identity with
  | none => false
  | some s => !(s == "") && !(strStartsWith s "agent_")

/-- A participant marks a human agent when its identity is truthy and starts
with `"human_agent_"` (the `has_human_agent` test in
`check_conversation_eligibility`). -/
def isHumanAgentParticipant (p : TwilioParticipant) : Bool :=
  match p.identity with
  | none => false
  | some s => !(s == "") && strStartsWith s "human_agent_"

/-- Translation of `check_conversation_eligibility`.  The two collaborator
fetches (`get_conversation_details`, `get_conversation_participants`) are
passed in as their results: `none` models a conversation that could not be
fetched. -/
def check_conversation_eligibility (conversation : Option TwilioConversation)
    (participants : List TwilioParticipant) : EligibilityResult :=
  match conversation with
  | none =>
    { eligible := false
      reason := "conversation_not_found"
      participant_count := 0
      has_human_agent := false }
  | some conv =>
    if !(conv.state == some "active") then
      { eligible := false
        reason := "conversation_not_active"
        participant_count := participants.length
        has_human_agent := false }
    else
      let customer_count := (participants.filter isCustomerParticipant).length
      let has_human_agent := participants.any isHumanAgentParticipant
      if has_human_agent then
        { eligible := false
          reason := "human_agent_present"
          participant_count := participants.length
          customer_count := some customer_count
          has_human_agent := true }
      else
        let eligible := customer_count == 1 && !has_human_agent
        { eligible := eligible
          reason := if eligible then "eligible" else "multiple_customers_or_agents"
          participant_count := participants.length
          customer_count := some customer_count
          has_human_agent := has_human_agent }

/-- Modelled from the spec wording only, for comparison with the code: the
verdict reason is the first failing check in the fixed order
not-found, not-active, human-agent-present, wrong-customer-count. -/
def firstFailing : List (Bool × String) → String
  | [] => "eligible"
  | (b, r) :: rest => if b then r else firstFailing rest

/-- Modelled from the spec wording only: the ordered list of disqualifying
checks and the reason each one reports. -/
def specEligibilityReason (conversation : Option TwilioConversation)
    (participants : List TwilioParticipant) : String :=
  firstFailing
    [ (conversation.isNone, "conversation_not_found"),
      (!((conversation.map TwilioConversation.state).getD none == some "active"),
        "conversation_not_active"),
      (participants.any isHumanAgentParticipant, "human_agent_present"),
      (!((participants.filter isCustomerParticipant).length == 1),
        "multiple_customers_or_agents") ]

/-! ## Session store (`SessionService`, message persistence only)

The SQL database is modelled as an association list from session id to the
ordered list of persisted messages; `get_session` reads messages ordered by
timestamp, which coincides with insertion order for the monotone timestamps
the service generates. -/

/-- The persistent message store, keyed by session id. -/
structure Store where
  sessions : List (String × List Message)
deriving DecidableEq, Repr

/-- Lookup of a session and its persisted messages (`get_session`; `none`
models the not-found case). -/
def getSession (st : Store) (session_id : String) : Option (List Message) :=
  (st.sessions.find? (fun p => p.1 == session_id)).map Prod.snd

/-- Upsert by primary key: replace the row under `session_id` when present,
insert a new row at the end otherwise. -/
def upsert : List (String × List Message) → String → List Message →
    List (String × List Message)
  | [], session_id, msgs => [(session_id, msgs)]
  | (k, v) :: rest, session_id, msgs =>
    if k == session_id then (session_id, msgs) :: rest
    else (k, v) :: upsert rest session_id msgs

/-- Write-back of a session record and its message list (the database merge
and commit inside `save_session`). -/
def putSession (st : Store) (session_id : String) (msgs : List Message) : Store :=
  ⟨upsert st.sessions session_id msgs⟩

/-- The message-persistence step of `save_session` (lines 223-243): collect
the identifiers already stored for the session, then insert, in order, exactly
those messages of the in-memory session whose identifier is not among them. -/
def saveSessionMessages (stored : List Message) (sessionMsgs : List Message) : List Message :=
  let existingIds := stored.map Message.id
  stored ++ sessionMsgs.filter (fun m => !(decide (m.id ∈ existingIds)))

/-- Derivation of the session key from the conversation sid
(`session_id = f"conv_..."` in `get_or_create_session`). -/
def sessionIdOf (conversation_sid : String) : String :=
  "conv_" ++ conversation_sid

/-- Translation of `get_or_create_session`: an existing session is re-saved
(touching activity timestamps, which the message model does not track), a
missing one is created with an empty message list and persisted.  Returns the
session id together with the updated store. -/
def get_or_create_session (st : Store) (conversation_sid : String) : String × Store :=
  let session_id := sessionIdOf conversation_sid
  match getSession st session_id with
  | some stored => (session_id, putSession st session_id (saveSessionMessages stored stored))
  | none => (session_id, putSession st session_id (saveSessionMessages [] []))

/-- Translation of `add_message_to_session`: load the session (returning
`false` when it does not exist), build the new `Message` (a pydantic
validation error is caught and turns into `false`), append it to the loaded
history and persist through `save_session`.  `newId` stands for the fresh
UUID the Python code generates. -/
def add_message_to_session (st : Store) (session_id : String) (role : MessageRole)
    (content : Option String) (author : Option String) (meta : MessageMeta)
    (newId : String) : Bool × Store :=
  match getSession st session_id with
  | none => (false, st)
  | some stored =>
    match mkMessage newId role content author meta with
    | none => (false, st)
    | some m =>
      (true, putSession st session_id (saveSessionMessages stored (stored ++ [m])))

/-- Translation of `get_conversation_history`: load the session (missing
session yields `[]`), drop system-role messages unless requested, and keep the
most recent `limit` messages when `limit > 0`, everything otherwise. -/
def get_conversation_history (st : Store) (session_id : String) (limit : Int)
    (include_system : Bool) : List Message :=
  match getSession st session_id with
  | none => []
  | some messages =>
    let messages := if include_system then messages
      else messages.filter (fun m => !(m.role == MessageRole.system))
    if 0 < limit then messages.drop (messages.length - limit.toNat) else messages

/-! ## Agent invoker (`CustomerServiceAgent.process_message`) -/

/-- Metadata of an `AgentResponse`; the keys written by `process_message`
that the claims consult, with key absence as the default value. -/
structure AgentMeta where
  error : Option String := none
  fallback_used : Bool := false
deriving DecidableEq, Repr

/-- The `AgentResponse` pydantic model. -/
structure AgentResponse where
  content : String
  confidence : Option ℚ := none
  tools_used : List String := []
  metadata : AgentMeta := {}
deriving DecidableEq, Repr

/-- Out-of-range test for the `AgentResponse` confidence field (`ge=0.0`,
`le=1.0` in the pydantic model; an absent confidence is accepted). -/
def confidenceOutOfRange : Option ℚ → Bool
  | some c => decide (c < 0) || decide (1 < c)
  | none => false

/-- Construction of an `AgentResponse` with its pydantic field validation:
`content` needs length at least 1 and `confidence`, when present, must lie in
`[0, 1]`. -/
def mkAgentResponse (content : String) (confidence : Option ℚ)
    (tools_used : List String) (meta : AgentMeta) : Option AgentResponse :=
  if content.length < 1 then none
  else if confidenceOutOfRange confidence then none
  else some { content := content, confidence := confidence,
              tools_used := tools_used, metadata := meta }

/-- The preset fallback content.  The repository ships no agent config file,
so `_load_agent_config` returns the empty dict and `process_message` falls
back to the hard-coded default string. -/
def fallback_content : String :=
  "I\x27m having trouble right now. Please contact customer service."

/-- Translation of `CustomerServiceAgent.process_message`.  The OpenAI call
(`_generate_response_with_openai`) is passed in as its outcome: `Except.ok`
carries the completion text, `Except.error` the raised error rendered as a
string.  Any exception inside the try block, including a validation failure of
the success response, lands in the fallback branch; the fallback response
itself always validates because `fallback_content` is a fixed non-empty
string, so the function is total and never propagates an error. -/
def process_message (backend : Except String String) : AgentResponse :=
  match backend with
  | Except.ok content =>
    match mkAgentResponse content (some (4/5)) [] {} with
    | some r => r
    | none =>
      { content := fallback_content
        confidence := some (1/10)
        tools_used := []
        metadata := { error := some "1 validation error for AgentResponse", fallback_used := true } }
  | Except.error e =>
    { content := fallback_content
      confidence := some (1/10)
      tools_used := []
      metadata := { error := some e, fallback_used := true } }

/-! ## Typing-indicator coordinator
(`set_typing_indicator_with_timeout` and the `finally` block of
`process_message_with_agent`)

The sequence of `set_typing_indicator` calls issued over one request is
modelled as a trace of booleans (`true` = set typing on, `false` = clear).
The race between the agent call finishing and the timeout task is captured by
enumerating the points at which the orchestrator's cancellation can reach the
task. -/

/-- Where the cooperative cancellation of the timeout task lands: never
(the timeout elapsed and the task finished on its own), at the `sleep` await,
at the await of the task's own post-sleep clear call (which has then already
been issued before `CancelledError` interrupts it), or before the initial set
call has run. -/
inductive TypingTaskOutcome
  | timedOut
  | cancelledDuringSleep
  | cancelledDuringOwnClear
  | cancelledBeforeSet
deriving DecidableEq, Repr

/-- Calls issued by `set_typing_indicator_with_timeout` itself: set, sleep,
clear on its own when the timeout elapses first; the `CancelledError` handler
clears when cancellation arrives during the sleep, or before the initial set
has run.  When cancellation lands during the task's own post-sleep clear,
that clear has already been issued and the `CancelledError` handler issues a
second one. -/
def set_typing_indicator_with_timeout_trace : TypingTaskOutcome → List Bool
  | TypingTaskOutcome.timedOut => [true, false]
  | TypingTaskOutcome.cancelledDuringSleep => [true, false]
  | TypingTaskOutcome.cancelledDuringOwnClear => [true, false, false]
  | TypingTaskOutcome.cancelledBeforeSet => [false]

/-- Calls issued over the whole request lifecycle: the timeout task runs only
when a `ParticipantSid` is present, and the `finally` block of
`process_message_with_agent` additionally awaits the cancelled task and then
always issues its own explicit clear.  The `finally` block runs on the
success, send-failure and exception paths alike. -/
def request_typing_trace (participant_sid : Option String)
    (outcome : TypingTaskOutcome) : List Bool :=
  match participant_sid with
  | none => []
  | some _ => set_typing_indicator_with_timeout_trace outcome ++ [false]

/-- State of the presence signal after a trace of calls: the last issued call
wins; it starts out cleared. -/
def typingSignalAfter (trace : List Bool) : Bool :=
  trace.foldl (fun _ e => e) false

/-! ## Webhook orchestrator (`process_message_with_agent`, `handle_message_added`) -/

/-- Translation of `process_message_with_agent`, with the collaborator calls
passed in as their outcomes: `backend` is the OpenAI call outcome consumed by
the agent invoker and `sendResult` the outcome of `send_message` (`some sid`
on success, `none` on failure).  `userMsgId` and `assistantMsgId` stand for
the fresh UUIDs generated for the two appended messages.  Returns the webhook
response and the updated store. -/
def process_message_with_agent (st : Store) (wd : WebhookRequest)
    (backend : Except String String) (sendResult : Option String)
    (userMsgId assistantMsgId : String) : WebhookResponse × Store :=
  let r1 := get_or_create_session st wd.ConversationSid
  let session_id := r1.1
  let r2 := add_message_to_session r1.2 session_id MessageRole.user wd.Body wd.Author {} userMsgId
  let agent_response := process_message backend
  match sendResult with
  | some sid =>
    let r3 := add_message_to_session r2.2 session_id MessageRole.assistant
      (some agent_response.content) (some "assistant")
      { twilio_message_sid := some sid, confidence := agent_response.confidence }
      assistantMsgId
    ({ success := true
       message := "Message processed and response sent"
       agent_responded := true }, r3.2)
  | none =>
    ({ success := false
       message := "Failed to send agent response"
       agent_responded := false
       error_code := some "twilio_send_error" }, r2.2)

/-- Result of the HTTP endpoint: either an `HTTPException` raised before a
response body is produced, or a `WebhookResponse` returned with status 200. -/
inductive HandlerResult
  | httpError (status : Nat) (detail : String)
  | ok (resp : WebhookResponse)
deriving DecidableEq, Repr

/-- Python truthiness of an optional string: `None` and the empty string are
falsy. -/
def pyTruthy : Option String → Bool
  | none => false
  | some s => !(s == "")

/-- Translation of `handle_message_added`.  Inputs that the Python code reads
from the environment or fetches from collaborators are passed explicitly:
`webhook_secret` is the configured secret, `x_twilio_signature` the request
header, `signature_valid` the outcome of the HMAC comparison performed by
`validate_webhook_signature`, `parsed` the outcome of constructing
`WebhookRequest` from the form data (`none` models a `ValidationError`),
`conversation` and `participants` the Twilio fetch results used by the
eligibility check, and `backend`, `sendResult`, `userMsgId`, `assistantMsgId`
feed `process_message_with_agent` as above. -/
def handle_message_added (st : Store)
    (webhook_secret : Option String) (x_twilio_signature : Option String)
    (signature_valid : Bool)
    (parsed : Option WebhookRequest)
    (conversation : Option TwilioConversation)
    (participants : List TwilioParticipant)
    (backend : Except String String) (sendResult : Option String)
    (userMsgId assistantMsgId : String) : HandlerResult × Store :=
  if pyTruthy webhook_secret && pyTruthy x_twilio_signature && !signature_valid then
    (HandlerResult.httpError 403 "Invalid webhook signature", st)
  else
    match parsed with
    | none =>
      (HandlerResult.ok
        { success := false
          message := "Invalid webhook payload"
          error_code := some "validation_error" }, st)
    | some wd =>
      if !(should_process_with_agent wd) then
        (HandlerResult.ok
          { success := true
            message := "Webhook received but not processed by agent"
            agent_responded := false }, st)
      else
        let eligibility := check_conversation_eligibility conversation participants
        if !eligibility.eligible then
          (HandlerResult.ok
            { success := true
              message := "Conversation not eligible: " ++ eligibility.reason
              agent_responded := false }, st)
        else
          let r := process_message_with_agent st wd backend sendResult userMsgId assistantMsgId
          (HandlerResult.ok r.1, r.2)

/-! ## Store lemmas -/

/-- The row just upserted is the one `find?` locates under its key. -/
lemma find?_upsert_self (l : List (String × List Message)) (sid : String)
    (msgs : List Message) :
    List.find? (fun p => p.1 == sid) (upsert l sid msgs) = some (sid, msgs) := by
  induction l with
  | nil => simp [upsert, List.find?_cons]
  | cons hd tl ih =>
    cases hd with
    | mk k v =>
      cases hp : (k == sid) with
      | true => simp [upsert, hp, List.find?_cons]
      | false => simp [upsert, hp, List.find?_cons, ih]

/-- Reading back a session just written returns the written messages. -/
lemma getSession_putSession_self (st : Store) (sid : String) (msgs : List Message) :
    getSession (putSession st sid msgs) sid = some msgs := by
  unfold getSession putSession
  rw [find?_upsert_self]
  rfl

/-- Re-saving a session whose messages extend the stored prefix inserts only
the extension, filtered against the already stored identifiers. -/
lemma saveSessionMessages_self_append (stored extra : List Message) :
    saveSessionMessages stored (stored ++ extra) =
      stored ++ extra.filter (fun m => !(decide (m.id ∈ stored.map Message.id))) := by
  simp only [saveSessionMessages]
  rw [List.filter_append]
  have h : stored.filter (fun m => !(decide (m.id ∈ stored.map Message.id))) = [] := by
    refine List.filter_eq_nil_iff.mpr ?_
    intro m hm
    have hmem : m.id ∈ stored.map Message.id := List.mem_map_of_mem Message.id hm
    simp only [decide_eq_true hmem, Bool.not_true]
    exact Bool.false_ne_true
  rw [h, List.nil_append]

/-- Re-saving an unchanged session leaves the stored messages unchanged. -/
lemma saveSessionMessages_self (stored : List Message) :
    saveSessionMessages stored stored = stored := by
  have := saveSessionMessages_self_append stored []
  simpa using this

/-- Saving after appending one message with a fresh identifier appends exactly
that message. -/
lemma saveSessionMessages_fresh (stored : List Message) (m : Message)
    (h : m.id ∉ stored.map Message.id) :
    saveSessionMessages stored (stored ++ [m]) = stored ++ [m] := by
  have hp : (!(decide (m.id ∈ stored.map Message.id))) = true := by
    rw [decide_eq_false h]
    rfl
  rw [saveSessionMessages_self_append]
  simp only [List.filter_cons, List.filter_nil]
  rw [if_pos hp]

/-- Saving after appending one message whose identifier is already stored
changes nothing. -/
lemma saveSessionMessages_dup (stored : List Message) (m : Message)
    (h : m.id ∈ stored.map Message.id) :
    saveSessionMessages stored (stored ++ [m]) = stored := by
  have hp : (!(decide (m.id ∈ stored.map Message.id))) = false := by
    rw [decide_eq_true h]
    rfl
  have hneg : ¬((!(decide (m.id ∈ stored.map Message.id))) = true) := by
    intro hc
    rw [hp] at hc
    exact Bool.false_ne_true hc
  rw [saveSessionMessages_self_append]
  simp only [List.filter_cons, List.filter_nil]
  rw [if_neg hneg, List.append_nil]

/-- The session id returned by `get_or_create_session` is the derived key. -/
lemma get_or_create_session_fst (st : Store) (csid : String) :
    (get_or_create_session st csid).1 = sessionIdOf csid := by
  unfold get_or_create_session
  cases h : getSession st (sessionIdOf csid) <;> simp [h]

/-- After `get_or_create_session` the session exists and holds exactly the
previously stored messages (none for a fresh session). -/
lemma getSession_get_or_create (st : Store) (csid : String) :
    getSession (get_or_create_session st csid).2 (sessionIdOf csid) =
      some ((getSession st (sessionIdOf csid)).getD []) := by
  unfold get_or_create_session
  cases h : getSession st (sessionIdOf csid) with
  | none => simp [h, getSession_putSession_self, saveSessionMessages]
  | some stored => simp [h, getSession_putSession_self, saveSessionMessages_self]

/-- Message-model validation succeeds on present, length-bounded content that
is non-empty after stripping, and stores the stripped text. -/
lemma mkMessage_valid (newId : String) (role : MessageRole) (c : String)
    (author : Option String) (meta : MessageMeta)
    (h1 : 1 ≤ c.length) (h2 : c.length ≤ 4000) (h3 : pyStrip c ≠ "") :
    mkMessage newId role (some c) author meta =
      some { id := newId, role := role, content := pyStrip c, author := author, meta := meta } := by
  simp only [mkMessage]
  rw [if_neg (by omega), if_neg (by omega), if_neg h3]

/-- Successful append on an existing session: validation passes, the fresh
message is persisted at the end of the stored list, and the call reports
success. -/
lemma add_message_to_session_success (st : Store) (sid : String) (role : MessageRole)
    (c : String) (author : Option String) (meta : MessageMeta) (newId : String)
    (stored : List Message)
    (hs : getSession st sid = some stored)
    (hfresh : newId ∉ stored.map Message.id)
    (h1 : 1 ≤ c.length) (h2 : c.length ≤ 4000) (h3 : pyStrip c ≠ "") :
    add_message_to_session st sid role (some c) author meta newId =
      (true, putSession st sid
        (stored ++ [{ id := newId, role := role, content := pyStrip c, author := author, meta := meta }])) := by
  simp only [add_message_to_session, hs, mkMessage_valid newId role c author meta h1 h2 h3,
    saveSessionMessages_fresh stored
      { id := newId, role := role, content := pyStrip c, author := author, meta := meta } hfresh]

/-! ## Sample data used by witnesses and counterexamples -/

/-- A message already persisted in the sample store. -/
def storedMsg : Message :=
  { id := "m1", role := MessageRole.user, content := "Hi, I need help" }

/-- A sample store holding one session with one persisted message. -/
def exStore : Store := ⟨[("conv_CH1", [storedMsg])]⟩

/-! ## Claim theorems: session store -/

/-- C5: `should_process_with_agent` returns true exactly when the event is a
message-creation event, its body is non-empty after trimming whitespace, and
its author is not the automated assistant identity; in particular it returns
false for every event authored by the assistant identity. -/
theorem should_process_with_agent_spec (r : WebhookRequest) :
    (should_process_with_agent r = true ↔
      (r.EventType = WebhookEventType.onMessageAdd ∧
        (∃ b, r.Body = some b ∧ pyStrip b ≠ "") ∧
        r.Author ≠ some "assistant"))
    ∧ (r.Author = some "assistant" → should_process_with_agent r = false) := by
  constructor
  · unfold should_process_with_agent is_message_event
    cases hb : r.Body with
    | none => simp [hb]
    | some b => simp [hb, and_assoc]
  · intro h
    unfold should_process_with_agent
    simp [h]

/-- A concrete inbound event authored by the assistant identity. -/
def assistantAuthoredRequest : WebhookRequest :=
  { EventType := WebhookEventType.onMessageAdd
    AccountSid := "AC1"
    ServiceSid := "IS1"
    ConversationSid := "CH1"
    Author := some "assistant"
    Body := some "Thanks for reaching out!" }

/-- Witness for C5: the assistant-authored sample event is not processed. -/
theorem should_process_with_agent_spec_inst :
    should_process_with_agent assistantAuthoredRequest = false :=
  (should_process_with_agent_spec assistantAuthoredRequest).2 rfl

/-- C8: appending to a session id that does not identify an existing session
returns `false` without raising, and leaves the store — hence every stored
message list — unchanged. -/
theorem add_message_missing_session_fails (st : Store) (session_id : String)
    (role : MessageRole) (content : Option String) (author : Option String)
    (meta : MessageMeta) (newId : String)
    (hs : getSession st session_id = none) :
    add_message_to_session st session_id role content author meta newId = (false, st) := by
  simp only [add_message_to_session, hs]

/-- Witness for C8: appending to an empty store fails and changes nothing. -/
theorem add_message_missing_session_fails_inst :
    add_message_to_session ⟨[]⟩ "conv_missing" MessageRole.user (some "hello") none {} "m7" =
      (false, ⟨[]⟩) :=
  add_message_missing_session_fails ⟨[]⟩ "conv_missing" MessageRole.user (some "hello")
    none {} "m7" rfl

/-- C10: appending content that is empty or whitespace-only (empty after
stripping) returns `false` and leaves the store unchanged — the `Message`
content validator rejects it before anything is persisted. -/
theorem add_message_blank_content_rejected (st : Store) (session_id : String)
    (role : MessageRole) (author : Option String) (meta : MessageMeta)
    (newId : String) (c : String) (hblank : pyStrip c = "") :
    add_message_to_session st session_id role (some c) author meta newId = (false, st) := by
  have hmk : mkMessage newId role (some c) author meta = none := by
    simp only [mkMessage]
    by_cases h1 : c.length < 1
    · rw [if_pos h1]
    · rw [if_neg h1]
      by_cases h2 : 4000 < c.length
      · rw [if_pos h2]
      · rw [if_neg h2, if_pos hblank]
  cases hs : getSession st session_id with
  | none => simp only [add_message_to_session, hs]
  | some stored => simp only [add_message_to_session, hs, hmk]

/-- Witness for C10: whitespace-only content is rejected on the sample
store. -/
theorem add_message_blank_content_rejected_inst :
    add_message_to_session exStore "conv_CH1" MessageRole.user (some "   ") none {} "m9" =
      (false, exStore) :=
  add_message_blank_content_rejected exStore "conv_CH1" MessageRole.user none {} "m9" "   "
    (by decide)

/-- C6: persisting a message whose identifier is already present in the
session's stored history is a no-op — the call reports success and the stored
message list (count and ordering) is unchanged. -/
theorem add_duplicate_message_id_noop (st : Store) (session_id : String)
    (role : MessageRole) (c : String) (author : Option String) (meta : MessageMeta)
    (dupId : String) (stored : List Message)
    (hs : getSession st session_id = some stored)
    (hdup : dupId ∈ stored.map Message.id)
    (h1 : 1 ≤ c.length) (h2 : c.length ≤ 4000) (h3 : pyStrip c ≠ "") :
    (add_message_to_session st session_id role (some c) author meta dupId).1 = true ∧
    getSession (add_message_to_session st session_id role (some c) author meta dupId).2
        session_id = some stored := by
  have hdup2 :
      ({ id := dupId, role := role, content := pyStrip c, author := author, meta := meta } :
        Message).id ∈ stored.map Message.id := hdup
  have heq : add_message_to_session st session_id role (some c) author meta dupId =
      (true, putSession st session_id stored) := by
    simp only [add_message_to_session, hs, mkMessage_valid dupId role c author meta h1 h2 h3,
      saveSessionMessages_dup stored _ hdup2]
  rw [heq]
  exact ⟨rfl, getSession_putSession_self st session_id stored⟩

/-- Witness for C6: re-persisting under the already stored identifier leaves
the sample session's history unchanged. -/
theorem add_duplicate_message_id_noop_inst :
    (add_message_to_session exStore "conv_CH1" MessageRole.user (some "Hi again") none {} "m1").1
      = true ∧
    getSession
        (add_message_to_session exStore "conv_CH1" MessageRole.user (some "Hi again") none {} "m1").2
        "conv_CH1" = some [storedMsg] :=
  add_duplicate_message_id_noop exStore "conv_CH1" MessageRole.user "Hi again" none {} "m1"
    [storedMsg] rfl (by decide) (by decide) (by decide) (by decide)

/-- C7: on an existing session, a successful append followed by
`get_conversation_history` with limit 0 (system messages requested, so the
role filter is the identity) returns the previously stored messages in
insertion order with the appended message as the last element. -/
theorem append_then_get_history_roundtrip (st : Store) (session_id : String)
    (role : MessageRole) (c : String) (author : Option String) (meta : MessageMeta)
    (newId : String) (stored : List Message)
    (hs : getSession st session_id = some stored)
    (hfresh : newId ∉ stored.map Message.id)
    (h1 : 1 ≤ c.length) (h2 : c.length ≤ 4000) (h3 : pyStrip c ≠ "") :
    (add_message_to_session st session_id role (some c) author meta newId).1 = true ∧
    get_conversation_history
        (add_message_to_session st session_id role (some c) author meta newId).2
        session_id 0 true =
      stored ++ [{ id := newId, role := role, content := pyStrip c, author := author, meta := meta }] := by
  rw [add_message_to_session_success st session_id role c author meta newId stored hs hfresh
    h1 h2 h3]
  refine ⟨rfl, ?_⟩
  simp only [get_conversation_history, getSession_putSession_self]
  rfl

/-- Witness for C7: appending a fresh message to the sample session and
reading the history with limit 0 returns it as the last element. -/
theorem append_then_get_history_roundtrip_inst :
    (add_message_to_session exStore "conv_CH1" MessageRole.assistant (some "Happy to help!")
        (some "assistant") {} "m2").1 = true ∧
    get_conversation_history
        (add_message_to_session exStore "conv_CH1" MessageRole.assistant (some "Happy to help!")
          (some "assistant") {} "m2").2
        "conv_CH1" 0 true =
      [storedMsg] ++
        [{ id := "m2", role := MessageRole.assistant, content := "Happy to help!",
           author := some "assistant", meta := {} }] :=
  append_then_get_history_roundtrip exStore "conv_CH1" MessageRole.assistant "Happy to help!"
    (some "assistant") {} "m2" [storedMsg] rfl (by decide) (by decide) (by decide) (by decide)

/-! ## Claim theorems: eligibility filter -/

/-- An inactive conversation used by the C1 counterexample. -/
def inactiveConv : TwilioConversation := { state := some "closed" }

/-- An active conversation used by the C1 witness. -/
def activeConv : TwilioConversation := { state := some "active" }

/-- A participant list containing a human agent and a customer. -/
def humanAgentParticipants : List TwilioParticipant :=
  [{ identity := some "human_agent_jane" }, { identity := some "cust1" }]

/-- Counterexample to C1 as stated: a non-active conversation containing a
human-agent participant is reported with reason `conversation_not_active`,
not `human_agent_present` — the not-active check precedes the human-agent
check, so human-agent presence does not force that reason for every
conversation. -/
theorem eligibility_not_active_beats_human_agent :
    humanAgentParticipants.any isHumanAgentParticipant = true ∧
    (check_conversation_eligibility (some inactiveConv) humanAgentParticipants).eligible
      = false ∧
    (check_conversation_eligibility (some inactiveConv) humanAgentParticipants).reason
      = "conversation_not_active" ∧
    (check_conversation_eligibility (some inactiveConv) humanAgentParticipants).reason
      ≠ "human_agent_present" := by
  decide

/-- C1 (amended): the eligibility verdict evaluates its disqualifying
conditions in the fixed order not-found, not-active, human-agent-present,
wrong-customer-count, returning the first failing reason and never
aggregating reasons (its reason coincides with the spec-side first-failing
scan, and it is eligible exactly when no check fails); and for every found,
active conversation containing a human-agent participant the verdict is
ineligible with reason `human_agent_present` regardless of how many
customer-type participants are present. -/
theorem check_conversation_eligibility_fixed_order
    (conversation : Option TwilioConversation) (participants : List TwilioParticipant) :
    (check_conversation_eligibility conversation participants).reason =
        specEligibilityReason conversation participants
    ∧ ((check_conversation_eligibility conversation participants).eligible = true ↔
        specEligibilityReason conversation participants = "eligible")
    ∧ (∀ conv : TwilioConversation, conversation = some conv →
        conv.state = some "active" →
        participants.any isHumanAgentParticipant = true →
        check_conversation_eligibility conversation participants =
          { eligible := false
            reason := "human_agent_present"
            participant_count := participants.length
            customer_count := some (participants.filter isCustomerParticipant).length
            has_human_agent := true }) := by
  cases conversation with
  | none => simp [check_conversation_eligibility, specEligibilityReason, firstFailing]
  | some conv =>
    by_cases hst : conv.state = some "active"
    · have hstb : (conv.state == some "active") = true := beq_iff_eq.mpr hst
      cases hh : participants.any isHumanAgentParticipant with
      | true =>
        simp [check_conversation_eligibility, specEligibilityReason, firstFailing,
          hstb, hst, hh]
      | false =>
        cases hcb : ((participants.filter isCustomerParticipant).length == 1) with
        | true =>
          simp [check_conversation_eligibility, specEligibilityReason, firstFailing,
            hstb, hst, hh, hcb]
        | false =>
          simp [check_conversation_eligibility, specEligibilityReason, firstFailing,
            hstb, hst, hh, hcb]
    · have hstb : (conv.state == some "active") = false := beq_eq_false_iff_ne.mpr hst
      simp [check_conversation_eligibility, specEligibilityReason, firstFailing, hstb, hst]

/-- Witness for C1: on an active conversation, the human agent among the
participants forces the `human_agent_present` verdict even though the
customer count is 2. -/
theorem check_conversation_eligibility_fixed_order_inst :
    check_conversation_eligibility (some activeConv) humanAgentParticipants =
      { eligible := false
        reason := "human_agent_present"
        participant_count := 2
        customer_count := some 2
        has_human_agent := true } :=
  (check_conversation_eligibility_fixed_order (some activeConv) humanAgentParticipants).2.2
    activeConv rfl rfl (by decide)

/-! ## Claim theorems: agent invoker -/

/-- The fallback confidence 0.1 is inside the permitted range. -/
lemma confidenceOutOfRange_tenth : confidenceOutOfRange (some (1/10)) = false := by
  show (decide ((1 : ℚ)/10 < 0) || decide (1 < (1 : ℚ)/10)) = false
  rw [decide_eq_false (by norm_num), decide_eq_false (by norm_num)]
  rfl

/-- The fallback response built in the exception handler of `process_message`
always passes the `AgentResponse` model validation, which is why the handler
itself cannot raise again. -/
lemma mkAgentResponse_fallback_valid (e : String) :
    mkAgentResponse fallback_content (some (1/10)) []
        { error := some e, fallback_used := true } =
      some { content := fallback_content
             confidence := some (1/10)
             tools_used := []
             metadata := { error := some e, fallback_used := true } } := by
  have hc : ¬(confidenceOutOfRange (some (1/10)) = true) := by
    rw [confidenceOutOfRange_tenth]
    exact Bool.false_ne_true
  unfold mkAgentResponse
  rw [if_neg (by decide), if_neg hc]

/-- C4: when the AI backend call raises, `process_message` does not propagate
the exception (it is a total function) but returns an `AgentResponse` whose
content is the preset fallback content, whose confidence is 0.1 (hence at
most 0.5), and whose metadata marks the fallback as used and records the
error. -/
theorem process_message_backend_error_fallback (e : String) :
    process_message (Except.error e) =
      { content := fallback_content
        confidence := some (1/10)
        tools_used := []
        metadata := { error := some e, fallback_used := true } } ∧
    (∃ cf : ℚ, (process_message (Except.error e)).confidence = some cf ∧ cf ≤ 1/2) ∧
    (process_message (Except.error e)).metadata.fallback_used = true ∧
    (process_message (Except.error e)).metadata.error = some e := by
  refine ⟨rfl, ⟨1/10, rfl, by norm_num⟩, rfl, rfl⟩

/-! ## Claim theorems: typing-indicator coordinator -/

/-- Counterexample to C2 as stated: on the path where the timeout task is
cancelled during its sleep, the request lifecycle issues one set-typing-on
call but two clear calls (the task's cancellation handler clears, and the
`finally` block clears again), so "at most one off call" fails. -/
theorem typing_trace_two_clear_calls :
    (request_typing_trace (some "MB1") TypingTaskOutcome.cancelledDuringSleep).count true
      = 1 ∧
    (request_typing_trace (some "MB1") TypingTaskOutcome.cancelledDuringSleep).count false
      = 2 ∧
    ¬((request_typing_trace (some "MB1") TypingTaskOutcome.cancelledDuringSleep).count false
      ≤ 1) := by
  decide

/-- C2 (amended): for every request lifecycle — whichever way the race
between agent completion and the typing timeout resolves — the typing signal
ends up cleared, with at most one set-typing-on call and at most three clear
calls issued (the timeout task's own post-sleep clear when it has already
been issued before cancellation interrupts it, the clear in the
`CancelledError` handler, and the guaranteed explicit clear in the `finally`
block). -/
theorem typing_trace_cleared_bounded (participant_sid : Option String)
    (outcome : TypingTaskOutcome) :
    typingSignalAfter (request_typing_trace participant_sid outcome) = false ∧
    (request_typing_trace participant_sid outcome).count true ≤ 1 ∧
    (request_typing_trace participant_sid outcome).count false ≤ 3 := by
  cases participant_sid with
  | none =>
    show typingSignalAfter [] = false ∧
      ([] : List Bool).count true ≤ 1 ∧ ([] : List Bool).count false ≤ 3
    decide
  | some s =>
    cases outcome with
    | timedOut =>
      show typingSignalAfter [true, false, false] = false ∧
        [true, false, false].count true ≤ 1 ∧ [true, false, false].count false ≤ 3
      decide
    | cancelledDuringSleep =>
      show typingSignalAfter [true, false, false] = false ∧
        [true, false, false].count true ≤ 1 ∧ [true, false, false].count false ≤ 3
      decide
    | cancelledDuringOwnClear =>
      show typingSignalAfter [true, false, false, false] = false ∧
        [true, false, false, false].count true ≤ 1 ∧
        [true, false, false, false].count false ≤ 3
      decide
    | cancelledBeforeSet =>
      show typingSignalAfter [false, false] = false ∧
        [false, false].count true ≤ 1 ∧ [false, false].count false ≤ 3
      decide

/-! ## Claim theorems: webhook orchestrator -/

/-- A concrete eligible inbound event used for the orchestrator scenarios. -/
def sendFailureRequest : WebhookRequest :=
  { EventType := WebhookEventType.onMessageAdd
    AccountSid := "AC1"
    ServiceSid := "IS1"
    ConversationSid := "CH9"
    MessageSid := some "IM1"
    ParticipantSid := some "MB1"
    Author := some "cust1"
    Body := some "Where is my order?" }

/-- Counterexample to C3 as stated: on the send-failure path the response's
error code is the literal `twilio_send_error`, not `outbound_send_error`. -/
theorem send_failure_error_code_literal :
    (process_message_with_agent ⟨[]⟩ sendFailureRequest (Except.ok "Let me check.") none
        "u1" "a1").1.success = false ∧
    (process_message_with_agent ⟨[]⟩ sendFailureRequest (Except.ok "Let me check.") none
        "u1" "a1").1.error_code = some "twilio_send_error" ∧
    (process_message_with_agent ⟨[]⟩ sendFailureRequest (Except.ok "Let me check.") none
        "u1" "a1").1.error_code ≠ some "outbound_send_error" := by
  decide

/-- C3 (amended): for every eligible inbound event whose outbound send fails
(`send_message` returns null), the orchestrator responds with
`success = false` and error code `twilio_send_error`, and the session's
stored history afterwards is the previous history plus the appended user
message only — no assistant message is appended for this event. -/
theorem send_failure_response_and_history (st : Store) (wd : WebhookRequest)
    (backend : Except String String) (userMsgId assistantMsgId : String) (b : String)
    (hbody : wd.Body = some b)
    (h1 : 1 ≤ b.length) (h2 : b.length ≤ 4000) (h3 : pyStrip b ≠ "")
    (hfresh : userMsgId ∉
      ((getSession st (sessionIdOf wd.ConversationSid)).getD []).map Message.id) :
    (process_message_with_agent st wd backend none userMsgId assistantMsgId).1 =
      { success := false
        message := "Failed to send agent response"
        agent_responded := false
        error_code := some "twilio_send_error" } ∧
    getSession (process_message_with_agent st wd backend none userMsgId assistantMsgId).2
        (sessionIdOf wd.ConversationSid) =
      some (((getSession st (sessionIdOf wd.ConversationSid)).getD []) ++
        [{ id := userMsgId, role := MessageRole.user, content := pyStrip b,
           author := wd.Author, meta := {} }]) := by
  have hoc2 : getSession (get_or_create_session st wd.ConversationSid).2
      (sessionIdOf wd.ConversationSid) =
      some ((getSession st (sessionIdOf wd.ConversationSid)).getD []) :=
    getSession_get_or_create st wd.ConversationSid
  simp only [process_message_with_agent, get_or_create_session_fst, hbody]
  rw [add_message_to_session_success (get_or_create_session st wd.ConversationSid).2
    (sessionIdOf wd.ConversationSid) MessageRole.user b wd.Author {} userMsgId
    ((getSession st (sessionIdOf wd.ConversationSid)).getD []) hoc2 hfresh h1 h2 h3]
  exact ⟨trivial, getSession_putSession_self _ _ _⟩

/-- Witness for C3 (amended): the concrete send-failure run on an empty store
yields the send-error response and a history holding only the user
message. -/
theorem send_failure_response_and_history_inst :
    (process_message_with_agent ⟨[]⟩ sendFailureRequest (Except.ok "Let me check.") none
        "u1" "a1").1 =
      { success := false
        message := "Failed to send agent response"
        agent_responded := false
        error_code := some "twilio_send_error" } ∧
    getSession (process_message_with_agent ⟨[]⟩ sendFailureRequest (Except.ok "Let me check.")
        none "u1" "a1").2 (sessionIdOf "CH9") =
      some ([] ++
        [{ id := "u1", role := MessageRole.user, content := pyStrip "Where is my order?",
           author := some "cust1", meta := {} }]) :=
  send_failure_response_and_history ⟨[]⟩ sendFailureRequest (Except.ok "Let me check.")
    "u1" "a1" "Where is my order?" rfl (by decide) (by decide) (by decide) (by decide)

/-- Counterexample to C9 as stated: with a secret configured but no signature
header on the request, the handler skips validation entirely and proceeds to
parse the payload instead of rejecting with an authentication failure, even
though the (absent) signature does not validate. -/
theorem missing_signature_header_not_rejected :
    (handle_message_added ⟨[]⟩ (some "sekret") none false none none []
        (Except.ok "hi") none "u1" "a1").1 =
      HandlerResult.ok
        { success := false
          message := "Invalid webhook payload"
          agent_responded := false
          error_code := some "validation_error" } ∧
    (handle_message_added ⟨[]⟩ (some "sekret") none false none none []
        (Except.ok "hi") none "u1" "a1").1 ≠
      HandlerResult.httpError 403 "Invalid webhook signature" := by
  decide

/-- C9 (amended): whenever a webhook secret is configured (truthy) and the
request carries a truthy signature header whose value does not validate
against the raw body and URL, the handler rejects with an HTTP 403
authentication failure before parsing the payload (the outcome is the same
for every parse result) and performs no side effects (the store is returned
unchanged). -/
theorem invalid_signature_rejected_before_parse (st : Store)
    (webhook_secret x_twilio_signature : Option String)
    (parsed : Option WebhookRequest)
    (conversation : Option TwilioConversation) (participants : List TwilioParticipant)
    (backend : Except String String) (sendResult : Option String)
    (userMsgId assistantMsgId : String)
    (hsecret : pyTruthy webhook_secret = true)
    (hsig : pyTruthy x_twilio_signature = true) :
    handle_message_added st webhook_secret x_twilio_signature false parsed conversation
        participants backend sendResult userMsgId assistantMsgId =
      (HandlerResult.httpError 403 "Invalid webhook signature", st) := by
  unfold handle_message_added
  rw [hsecret, hsig]
  rfl

/-- Witness for C9 (amended): a concrete request with configured secret and a
non-validating signature header is rejected with 403 and an unchanged
store. -/
theorem invalid_signature_rejected_before_parse_inst :
    handle_message_added ⟨[]⟩ (some "sekret") (some "bad-signature") false
        (some sendFailureRequest) (some activeConv) [] (Except.ok "hi") none "u1" "a1" =
      (HandlerResult.httpError 403 "Invalid webhook signature", ⟨[]⟩) :=
  invalid_signature_rejected_before_parse ⟨[]⟩ (some "sekret") (some "bad-signature")
    (some sendFailureRequest) (some activeConv) [] (Except.ok "hi") none "u1" "a1"
    (by decide) (by decide)

end TwilioBot
